import Mathlib

/-!
# Verification of the 3D_BezierCurve curve/physics kernel

Shallow embedding of the kernel of the repository (`src/js/utils.js`,
`src/js/bezier-math.js`) over the real numbers: the immutable `Vector2D`
value type, the `CubicBezier` evaluator, the `SpringPhysics` integrator,
`SpringPoint`, and the `InteractiveBezier` orchestrator.  JavaScript
numbers are idealised as real numbers; mutation is modelled by explicit
state passing (each mutating method returns the new state).
-/

noncomputable section

/-- Immutable 2D vector, mirroring `Vector2D` in `src/js/utils.js`. -/
structure Vector2D where
  x : ℝ
  y : ℝ

namespace Vector2D

/-- `Vector2D.zero()`. -/
def zero : Vector2D := ⟨0, 0⟩

/-- `add(v)`. -/
def add (v w : Vector2D) : Vector2D := ⟨v.x + w.x, v.y + w.y⟩

/-- `subtract(v)`. -/
def subtract (v w : Vector2D) : Vector2D := ⟨v.x - w.x, v.y - w.y⟩

/-- `multiply(s)` (scalar multiplication). -/
def multiply (v : Vector2D) (s : ℝ) : Vector2D := ⟨v.x * s, v.y * s⟩

/-- `divide(s)`: guarded scalar division, returns the zero vector when `s = 0`. -/
def divide (v : Vector2D) (s : ℝ) : Vector2D :=
  if s = 0 then ⟨0, 0⟩ else ⟨v.x / s, v.y / s⟩

/-- `negate()`. -/
def negate (v : Vector2D) : Vector2D := ⟨-v.x, -v.y⟩

/-- `magnitude()`. -/
def magnitude (v : Vector2D) : ℝ := Real.sqrt (v.x * v.x + v.y * v.y)

/-- `magnitudeSquared()`. -/
def magnitudeSquared (v : Vector2D) : ℝ := v.x * v.x + v.y * v.y

/-- `normalize()`: guarded, returns the zero vector for the zero vector. -/
def normalize (v : Vector2D) : Vector2D :=
  if v.magnitude = 0 then ⟨0, 0⟩ else v.divide v.magnitude

/-- `dot(v)`. -/
def dot (v w : Vector2D) : ℝ := v.x * w.x + v.y * w.y

/-- `projectOnto(v)`: guarded, returns the zero vector for a zero-length axis. -/
def projectOnto (v w : Vector2D) : Vector2D :=
  if w.magnitudeSquared = 0 then ⟨0, 0⟩ else w.multiply (v.dot w / w.magnitudeSquared)

end Vector2D

/-- Four-point cubic Bézier curve, mirroring `CubicBezier` in `src/js/bezier-math.js`. -/
structure CubicBezier where
  p0 : Vector2D
  p1 : Vector2D
  p2 : Vector2D
  p3 : Vector2D

/-- `Math.max(0, Math.min(1, t))`. -/
def clamp01 (t : ℝ) : ℝ := max 0 (min 1 t)

namespace CubicBezier

/-- `evaluate(t)`: Bernstein-basis cubic evaluation with internal clamping of `t`. -/
def evaluate (c : CubicBezier) (t0 : ℝ) : Vector2D :=
  let t := clamp01 t0
  let mt := 1 - t
  let mt2 := mt * mt
  let mt3 := mt2 * mt
  let t2 := t * t
  let t3 := t2 * t
  let b0 := mt3
  let b1 := 3 * mt2 * t
  let b2 := 3 * mt * t2
  let b3 := t3
  ⟨b0 * c.p0.x + b1 * c.p1.x + b2 * c.p2.x + b3 * c.p3.x,
   b0 * c.p0.y + b1 * c.p1.y + b2 * c.p2.y + b3 * c.p3.y⟩

/-- `sample(segments)`: evaluates at `i / segments` for `i = 0 .. segments`. -/
def sample (c : CubicBezier) (segments : ℕ) : List Vector2D :=
  (List.range (segments + 1)).map (fun i : ℕ => c.evaluate ((i : ℝ) / (segments : ℝ)))

end CubicBezier

/-- State of a `SpringPhysics` instance (`src/js/bezier-math.js`). -/
structure SpringPhysics where
  stiffness : ℝ
  damping : ℝ
  mass : ℝ
  position : Vector2D
  velocity : Vector2D
  target : Vector2D
  maxVelocity : ℝ
  maxDisplacement : ℝ

namespace SpringPhysics

/-- `setTarget(target)`. -/
def setTarget (s : SpringPhysics) (t : Vector2D) : SpringPhysics :=
  { s with target := t }

/-- `update(dt)`: semi-implicit Euler step with dt clamp, velocity clamp and
displacement clamp, returning the new state paired with the returned position. -/
def update (s : SpringPhysics) (dt0 : ℝ) : SpringPhysics × Vector2D :=
  let dt := min dt0 (1/30)
  let displacement := s.position.subtract s.target
  let springForce := displacement.multiply (-s.stiffness)
  let dampingForce := s.velocity.multiply (-s.damping)
  let totalForce := springForce.add dampingForce
  let acceleration := totalForce.divide s.mass
  let v1 := s.velocity.add (acceleration.multiply dt)
  let v2 := if v1.magnitude > s.maxVelocity then (v1.normalize).multiply s.maxVelocity else v1
  let p1 := s.position.add (v2.multiply dt)
  let currentDisp := p1.subtract s.target
  let p2 := if currentDisp.magnitude > s.maxDisplacement
    then s.target.add ((currentDisp.normalize).multiply s.maxDisplacement)
    else p1
  ({ s with position := p2, velocity := v2 }, p2)

/-- `applyImpulse(impulse)`. -/
def applyImpulse (s : SpringPhysics) (impulse : Vector2D) : SpringPhysics :=
  { s with velocity := s.velocity.add (impulse.divide s.mass) }

/-- Specification-side update step, written from the specified sequence of
steps: clamp `dt` to `1/30`; acceleration `(−stiffness·(position − target)
− damping·velocity) / mass` componentwise; integrate velocity; rescale the
velocity to magnitude `maxVelocity` (direction preserved) when it exceeds it;
integrate position; re-anchor the position at target plus the displacement
direction scaled to `maxDisplacement` when the displacement exceeds it. -/
def specUpdate (s : SpringPhysics) (dt0 : ℝ) : SpringPhysics :=
  let dt := min dt0 (1/30)
  let acc : Vector2D :=
    ⟨(-s.stiffness * (s.position.x - s.target.x) - s.damping * s.velocity.x) / s.mass,
     (-s.stiffness * (s.position.y - s.target.y) - s.damping * s.velocity.y) / s.mass⟩
  let v := s.velocity.add (acc.multiply dt)
  let v2 := if v.magnitude > s.maxVelocity then v.multiply (s.maxVelocity / v.magnitude) else v
  let p := s.position.add (v2.multiply dt)
  let d := p.subtract s.target
  let p2 := if d.magnitude > s.maxDisplacement
    then s.target.add (d.multiply (s.maxDisplacement / d.magnitude))
    else p
  { s with position := p2, velocity := v2 }

end SpringPhysics

/-- Configuration record for spring construction, holding the numeric defaults
of the `SpringPhysics` and `SpringPoint` constructors. -/
structure SpringConfig where
  stiffness : ℝ := 150
  damping : ℝ := 12
  mass : ℝ := 1
  maxVelocity : ℝ := 2000
  maxDisplacement : ℝ := 500
  influence : ℝ := 1

/-- The `SpringPhysics` constructor: initial position given, zero velocity,
target equal to the initial position. -/
def mkSpringPhysics (cfg : SpringConfig) (initialPosition : Vector2D) : SpringPhysics :=
  { stiffness := cfg.stiffness
    damping := cfg.damping
    mass := cfg.mass
    position := initialPosition
    velocity := ⟨0, 0⟩
    target := initialPosition
    maxVelocity := cfg.maxVelocity
    maxDisplacement := cfg.maxDisplacement }

/-- State of a `SpringPoint`: an owned spring, a base position and an influence. -/
structure SpringPoint where
  spring : SpringPhysics
  basePosition : Vector2D
  influence : ℝ

/-- The `SpringPoint` constructor. -/
def mkSpringPoint (x y : ℝ) (cfg : SpringConfig) : SpringPoint :=
  { spring := mkSpringPhysics cfg ⟨x, y⟩
    basePosition := ⟨x, y⟩
    influence := cfg.influence }

namespace SpringPoint

/-- `get position()`. -/
def position (p : SpringPoint) : Vector2D := p.spring.position

/-- `setInputOffset(offset)`: scales the offset by `influence` and retargets
the spring at `basePosition + scaled`. -/
def setInputOffset (p : SpringPoint) (offset : Vector2D) : SpringPoint :=
  { p with spring := p.spring.setTarget (p.basePosition.add (offset.multiply p.influence)) }

/-- `setBasePosition(x, y)`. -/
def setBasePosition (p : SpringPoint) (x y : ℝ) : SpringPoint :=
  { p with basePosition := ⟨x, y⟩ }

end SpringPoint

/-- State of an `InteractiveBezier`: viewport dimensions, two fixed endpoints
and two spring-controlled interior points. -/
structure InteractiveBezier where
  width : ℝ
  height : ℝ
  p0 : Vector2D
  p3 : Vector2D
  springP1 : SpringPoint
  springP2 : SpringPoint

/-- The `InteractiveBezier` constructor with no explicit control points in the
config: default endpoint margin 100, default interior placements, influences
1.0 and 0.8, shared default spring parameters. -/
def mkInteractiveBezier (width height : ℝ) : InteractiveBezier :=
  { width := width
    height := height
    p0 := ⟨100, height / 2⟩
    p3 := ⟨width - 100, height / 2⟩
    springP1 := mkSpringPoint (width * 0.33) (height * 0.25) { influence := 1 }
    springP2 := mkSpringPoint (width * 0.66) (height * 0.75) { influence := 0.8 } }

namespace InteractiveBezier

/-- `getCurve()`: transient snapshot with the live spring positions. -/
def getCurve (b : InteractiveBezier) : CubicBezier :=
  ⟨b.p0, b.springP1.position, b.springP2.position, b.p3⟩

/-- `setInputOffset(offset)`: forwarded raw to point 1 and scaled by `-0.6`
to point 2. -/
def setInputOffset (b : InteractiveBezier) (offset : Vector2D) : InteractiveBezier :=
  { b with
    springP1 := b.springP1.setInputOffset offset
    springP2 := b.springP2.setInputOffset (offset.multiply (-0.6)) }

/-- `resize(width, height)`: rescales endpoints and spring base positions by
the ratio of new to old dimensions. -/
def resize (b : InteractiveBezier) (width height : ℝ) : InteractiveBezier :=
  let scaleX := width / b.width
  let scaleY := height / b.height
  { b with
    width := width
    height := height
    p0 := ⟨b.p0.x * scaleX, b.p0.y * scaleY⟩
    p3 := ⟨b.p3.x * scaleX, b.p3.y * scaleY⟩
    springP1 := b.springP1.setBasePosition (b.springP1.basePosition.x * scaleX)
      (b.springP1.basePosition.y * scaleY)
    springP2 := b.springP2.setBasePosition (b.springP2.basePosition.x * scaleX)
      (b.springP2.basePosition.y * scaleY) }

end InteractiveBezier

/-! ## Helper lemmas -/

namespace Vector2D

@[ext] lemma ext' {v w : Vector2D} (hx : v.x = w.x) (hy : v.y = w.y) : v = w := by
  cases v; cases w; simp_all

/-- Guarded division agrees with real division (which sends `x / 0` to `0`). -/
lemma divide_eq (v : Vector2D) (s : ℝ) : v.divide s = ⟨v.x / s, v.y / s⟩ := by
  unfold divide
  split
  · simp_all
  · rfl

lemma magnitude_nonneg (v : Vector2D) : 0 ≤ v.magnitude := Real.sqrt_nonneg _

/-- A vector of zero magnitude is the zero vector. -/
lemma eq_zero_of_magnitude_eq_zero {v : Vector2D} (h : v.magnitude = 0) : v = ⟨0, 0⟩ := by
  unfold magnitude at h
  rw [Real.sqrt_eq_zero'] at h
  have hx : v.x * v.x = 0 ∧ v.y * v.y = 0 := by
    constructor <;> nlinarith [mul_self_nonneg v.x, mul_self_nonneg v.y]
  exact ext' (mul_self_eq_zero.mp hx.1) (mul_self_eq_zero.mp hx.2)

/-- `normalize` agrees with unguarded componentwise division by the magnitude. -/
lemma normalize_eq (v : Vector2D) :
    v.normalize = ⟨v.x / v.magnitude, v.y / v.magnitude⟩ := by
  unfold normalize
  split
  · rename_i h
    have hv := eq_zero_of_magnitude_eq_zero h
    rw [h]
    simp [hv]
  · exact divide_eq v v.magnitude

/-- Magnitude of a scalar multiple. -/
lemma magnitude_multiply (v : Vector2D) (c : ℝ) :
    (v.multiply c).magnitude = |c| * v.magnitude := by
  unfold multiply magnitude
  have h : v.x * c * (v.x * c) + v.y * c * (v.y * c) = c ^ 2 * (v.x * v.x + v.y * v.y) := by
    ring
  rw [h, Real.sqrt_mul (sq_nonneg c), Real.sqrt_sq_eq_abs]

/-- Rescaling a nonzero vector onto a nonnegative magnitude `M` produces
magnitude exactly `M`. -/
lemma magnitude_normalize_multiply (v : Vector2D) (M : ℝ) (hM : 0 ≤ M)
    (hv : 0 < v.magnitude) : ((v.normalize).multiply M).magnitude = M := by
  have he : (v.normalize).multiply M = v.multiply (M / v.magnitude) := by
    apply ext' <;> simp only [normalize_eq, multiply] <;> ring
  rw [he, magnitude_multiply, abs_of_nonneg (div_nonneg hM hv.le),
    div_mul_cancel₀ _ hv.ne']

end Vector2D

lemma clamp01_nonneg (t : ℝ) : 0 ≤ clamp01 t := le_max_left _ _

lemma clamp01_le_one (t : ℝ) : clamp01 t ≤ 1 :=
  max_le (by norm_num) (min_le_left _ _)

lemma clamp01_eq_self {t : ℝ} (h0 : 0 ≤ t) (h1 : t ≤ 1) : clamp01 t = t := by
  unfold clamp01
  rw [min_eq_right h1, max_eq_right h0]

lemma clamp01_idem (t : ℝ) : clamp01 (clamp01 t) = clamp01 t :=
  clamp01_eq_self (clamp01_nonneg t) (clamp01_le_one t)

/-- The velocity-integration step of `update` agrees with the componentwise
acceleration formula of the specification. -/
lemma accel_bridge (s : SpringPhysics) (dt : ℝ) :
    s.velocity.add (((((s.position.subtract s.target).multiply (-s.stiffness)).add
        (s.velocity.multiply (-s.damping))).divide s.mass).multiply dt)
      = s.velocity.add
        ((⟨(-s.stiffness * (s.position.x - s.target.x) - s.damping * s.velocity.x) / s.mass,
           (-s.stiffness * (s.position.y - s.target.y) - s.damping * s.velocity.y) / s.mass⟩
          : Vector2D).multiply dt) := by
  apply Vector2D.ext' <;>
    simp only [Vector2D.add, Vector2D.subtract, Vector2D.multiply, Vector2D.divide_eq] <;> ring

/-- The velocity clamp of `update` (normalize-then-scale) agrees with the
specification's rescale to magnitude `M`. -/
lemma clampV_bridge (v : Vector2D) (M : ℝ) :
    (if v.magnitude > M then (v.normalize).multiply M else v)
      = (if v.magnitude > M then v.multiply (M / v.magnitude) else v) := by
  split
  · apply Vector2D.ext' <;> simp only [Vector2D.normalize_eq, Vector2D.multiply] <;> ring
  · rfl

/-- The displacement clamp of `update` agrees with the specification's
re-anchoring at target plus the rescaled displacement. -/
lemma clampP_bridge (p t : Vector2D) (M : ℝ) :
    (if (p.subtract t).magnitude > M
        then t.add (((p.subtract t).normalize).multiply M) else p)
      = (if (p.subtract t).magnitude > M
        then t.add ((p.subtract t).multiply (M / (p.subtract t).magnitude)) else p) := by
  split
  · apply congrArg
    apply Vector2D.ext' <;> simp only [Vector2D.normalize_eq, Vector2D.multiply] <;> ring
  · rfl

/-- The clamped velocity has magnitude at most `M` for nonnegative `M`. -/
lemma clampV_le (v : Vector2D) (M : ℝ) (hM : 0 ≤ M) :
    (if v.magnitude > M then (v.normalize).multiply M else v).magnitude ≤ M := by
  split
  · rename_i h
    rw [Vector2D.magnitude_normalize_multiply v M hM (lt_of_le_of_lt hM h)]
  · rename_i h
    exact le_of_not_lt h

/-- The clamped position is displaced from the target by at most `M` for
nonnegative `M`. -/
lemma clampP_le (p t : Vector2D) (M : ℝ) (hM : 0 ≤ M) :
    ((if (p.subtract t).magnitude > M
        then t.add (((p.subtract t).normalize).multiply M) else p).subtract t).magnitude
      ≤ M := by
  split
  · rename_i h
    have hsub : (t.add (((p.subtract t).normalize).multiply M)).subtract t
        = ((p.subtract t).normalize).multiply M := by
      apply Vector2D.ext' <;>
        simp only [Vector2D.add, Vector2D.subtract, Vector2D.multiply] <;> ring
    rw [hsub, Vector2D.magnitude_normalize_multiply _ M hM (lt_of_le_of_lt hM h)]
  · rename_i h
    exact le_of_not_lt h

/-- A state at rest on its target is a fixed point of a single `update` step. -/
lemma update_at_rest (s : SpringPhysics) (dt : ℝ) (h1 : s.target = s.position)
    (h2 : s.velocity = ⟨0, 0⟩) : (s.update dt).1 = s := by
  obtain ⟨k, c, m, pos, vel, tgt, mv, md⟩ := s
  simp only at h1 h2
  subst h1 h2
  simp [SpringPhysics.update, Vector2D.subtract, Vector2D.multiply, Vector2D.add,
    Vector2D.divide, Vector2D.normalize, Vector2D.magnitude]

/-! ## Claim theorems -/

/-- C1: for every `SpringPhysics` state and every `dt`, `update(dt)` performs
exactly the specified steps in the specified order — dt clamp to `1/30`,
acceleration `(−stiffness·(position − target) − damping·velocity)/mass`,
velocity integration, velocity rescale to magnitude `maxVelocity` when
exceeded, position integration, re-anchoring at target plus the displacement
direction scaled to `maxDisplacement` when exceeded — and returns the updated
position. -/
theorem update_follows_spec_steps (s : SpringPhysics) (dt : ℝ) :
    (s.update dt).1 = s.specUpdate dt ∧ (s.update dt).2 = (s.update dt).1.position := by
  constructor
  · simp only [SpringPhysics.update, SpringPhysics.specUpdate]
    rw [accel_bridge, clampV_bridge, clampP_bridge]
  · simp only [SpringPhysics.update]

/-- C2: after any single `update` call, however extreme the target, the
velocity magnitude is at most `maxVelocity` and the displacement of the
position from the target is at most `maxDisplacement` (for nonnegative
clamp rails). -/
theorem update_clamps_velocity_and_displacement (s : SpringPhysics) (dt : ℝ)
    (hV : 0 ≤ s.maxVelocity) (hD : 0 ≤ s.maxDisplacement) :
    ((s.update dt).1.velocity).magnitude ≤ s.maxVelocity ∧
      (((s.update dt).1.position).subtract ((s.update dt).1.target)).magnitude
        ≤ s.maxDisplacement := by
  constructor
  · simp only [SpringPhysics.update]
    exact clampV_le _ _ hV
  · simp only [SpringPhysics.update]
    exact clampP_le _ _ _ hD

/-- Witness for C2 at a concrete state with a large target jump. -/
theorem update_clamps_velocity_and_displacement_witness :
    (0:ℝ) ≤ 2000 ∧ (0:ℝ) ≤ 500 ∧
      ((((⟨150, 12, 1, ⟨0, 0⟩, ⟨0, 0⟩, ⟨100000, 0⟩, 2000, 500⟩ : SpringPhysics).update
          (1/60)).1.velocity).magnitude ≤ 2000 ∧
        ((((⟨150, 12, 1, ⟨0, 0⟩, ⟨0, 0⟩, ⟨100000, 0⟩, 2000, 500⟩ : SpringPhysics).update
            (1/60)).1.position).subtract
          (((⟨150, 12, 1, ⟨0, 0⟩, ⟨0, 0⟩, ⟨100000, 0⟩, 2000, 500⟩ : SpringPhysics).update
            (1/60)).1.target)).magnitude ≤ 500) :=
  ⟨by norm_num, by norm_num,
    update_clamps_velocity_and_displacement _ _ (by norm_num) (by norm_num)⟩

/-- C5: `evaluate(0)` is `p0`, `evaluate(1)` is `p3`, and evaluation at any
real `t` agrees with evaluation at `t` clamped into `[0, 1]` — the evaluator
never extrapolates. -/
theorem evaluate_endpoints_and_clamping (c : CubicBezier) :
    c.evaluate 0 = c.p0 ∧ c.evaluate 1 = c.p3 ∧
      ∀ t : ℝ, c.evaluate t = c.evaluate (clamp01 t) := by
  have h0 : clamp01 (0:ℝ) = 0 := by unfold clamp01; norm_num
  have h1 : clamp01 (1:ℝ) = 1 := by unfold clamp01; norm_num
  refine ⟨?_, ?_, fun t => ?_⟩
  · apply Vector2D.ext' <;> simp only [CubicBezier.evaluate, h0] <;> ring
  · apply Vector2D.ext' <;> simp only [CubicBezier.evaluate, h1] <;> ring
  · simp only [CubicBezier.evaluate, clamp01_idem]

/-- C4 counterexample: for the curve with `p0=(0,100)`, `p1=(33,25)`,
`p2=(66,75)`, `p3=(100,100)`, `evaluate(0.5)` is not within `1e-2` of
`(49.5, 68.75)` in each coordinate. -/
theorem evaluate_half_concrete_counterexample :
    ¬(|((⟨⟨0, 100⟩, ⟨33, 25⟩, ⟨66, 75⟩, ⟨100, 100⟩⟩ : CubicBezier).evaluate 0.5).x - 49.5|
          < 1e-2 ∧
      |((⟨⟨0, 100⟩, ⟨33, 25⟩, ⟨66, 75⟩, ⟨100, 100⟩⟩ : CubicBezier).evaluate 0.5).y - 68.75|
          < 1e-2) := by
  intro h
  have hy := h.2
  norm_num [CubicBezier.evaluate, clamp01, min_def, max_def, abs] at hy

/-- C4 amended: the value of `evaluate(0.5)` on that curve is `(49.625, 62.5)`
within `1e-2` in each coordinate (indeed exactly). -/
theorem evaluate_half_concrete_amended :
    |((⟨⟨0, 100⟩, ⟨33, 25⟩, ⟨66, 75⟩, ⟨100, 100⟩⟩ : CubicBezier).evaluate 0.5).x - 49.625|
        < 1e-2 ∧
      |((⟨⟨0, 100⟩, ⟨33, 25⟩, ⟨66, 75⟩, ⟨100, 100⟩⟩ : CubicBezier).evaluate 0.5).y - 62.5|
        < 1e-2 := by
  constructor <;> norm_num [CubicBezier.evaluate, clamp01, min_def, max_def, abs]

/-- C7: `divide(0)` is the zero vector, `normalize` of the zero vector is the
zero vector, and `projectOnto` a zero-length axis is the zero vector — all
numeric degeneracies fall back deterministically. -/
theorem vector_degenerate_fallbacks (v w : Vector2D) :
    v.divide 0 = Vector2D.zero ∧ Vector2D.zero.normalize = Vector2D.zero ∧
      (w.magnitude = 0 → v.projectOnto w = Vector2D.zero) := by
  refine ⟨?_, ?_, fun hw => ?_⟩
  · simp [Vector2D.divide, Vector2D.zero]
  · simp [Vector2D.normalize, Vector2D.zero, Vector2D.magnitude]
  · have hsq : w.magnitudeSquared = 0 := by
      unfold Vector2D.magnitude at hw
      unfold Vector2D.magnitudeSquared
      have h2 := Real.sqrt_eq_zero'.mp hw
      nlinarith [mul_self_nonneg w.x, mul_self_nonneg w.y]
    simp [Vector2D.projectOnto, hsq, Vector2D.zero]

/-- Witness for C7 at a concrete vector and the zero axis. -/
theorem vector_degenerate_fallbacks_witness :
    (⟨0, 0⟩ : Vector2D).magnitude = 0 ∧
      (⟨1, 2⟩ : Vector2D).projectOnto ⟨0, 0⟩ = Vector2D.zero := by
  have hm : (⟨0, 0⟩ : Vector2D).magnitude = 0 := by simp [Vector2D.magnitude]
  exact ⟨hm, (vector_degenerate_fallbacks ⟨1, 2⟩ ⟨0, 0⟩).2.2 hm⟩

/-- C6: `setInputOffset(o)` targets point 1's spring at
`basePosition₁ + influence₁·o` and point 2's spring at
`basePosition₂ + influence₂·(−0.6·o)`, changing no spring's position or
velocity. -/
theorem setInputOffset_targets (b : InteractiveBezier) (offset : Vector2D) :
    (b.setInputOffset offset).springP1.spring.target
        = ⟨b.springP1.basePosition.x + b.springP1.influence * offset.x,
           b.springP1.basePosition.y + b.springP1.influence * offset.y⟩ ∧
      (b.setInputOffset offset).springP2.spring.target
        = ⟨b.springP2.basePosition.x + b.springP2.influence * (-0.6 * offset.x),
           b.springP2.basePosition.y + b.springP2.influence * (-0.6 * offset.y)⟩ ∧
      (b.setInputOffset offset).springP1.spring.position = b.springP1.spring.position ∧
      (b.setInputOffset offset).springP1.spring.velocity = b.springP1.spring.velocity ∧
      (b.setInputOffset offset).springP2.spring.position = b.springP2.spring.position ∧
      (b.setInputOffset offset).springP2.spring.velocity = b.springP2.spring.velocity := by
  unfold InteractiveBezier.setInputOffset SpringPoint.setInputOffset SpringPhysics.setTarget
  refine ⟨?_, ?_, rfl, rfl, rfl, rfl⟩
  · apply Vector2D.ext' <;> simp only [Vector2D.add, Vector2D.multiply] <;> ring
  · apply Vector2D.ext' <;> simp only [Vector2D.add, Vector2D.multiply] <;> ring

/-- C3 counterexample: after constructing at (100, 100) and resizing to
(200, 100), the live spring position of p1 exposed by `getCurve()` is *not*
its previous value scaled by `200/100` — `resize` rescales only the base
positions, not the live spring state. -/
theorem resize_scales_counterexample :
    ((mkInteractiveBezier 100 100).resize 200 100).getCurve.p1.x
      ≠ (mkInteractiveBezier 100 100).getCurve.p1.x * (200 / 100) := by
  simp only [mkInteractiveBezier, InteractiveBezier.resize, InteractiveBezier.getCurve,
    mkSpringPoint, mkSpringPhysics, SpringPoint.position, SpringPoint.setBasePosition]
  norm_num

/-- C3 amended: `resize(w2, h2)` scales `p0`, `p3` and both springs' base
positions by exactly `w2/w1` and `h2/h1`, while the live spring positions
(hence the `p1`, `p2` exposed by `getCurve()`) are left unchanged. -/
theorem resize_scales_amended (b : InteractiveBezier) (w2 h2 : ℝ) :
    (b.resize w2 h2).p0 = ⟨b.p0.x * (w2 / b.width), b.p0.y * (h2 / b.height)⟩ ∧
      (b.resize w2 h2).p3 = ⟨b.p3.x * (w2 / b.width), b.p3.y * (h2 / b.height)⟩ ∧
      (b.resize w2 h2).springP1.basePosition
        = ⟨b.springP1.basePosition.x * (w2 / b.width),
           b.springP1.basePosition.y * (h2 / b.height)⟩ ∧
      (b.resize w2 h2).springP2.basePosition
        = ⟨b.springP2.basePosition.x * (w2 / b.width),
           b.springP2.basePosition.y * (h2 / b.height)⟩ ∧
      (b.resize w2 h2).getCurve.p1 = b.getCurve.p1 ∧
      (b.resize w2 h2).getCurve.p2 = b.getCurve.p2 := by
  unfold InteractiveBezier.resize InteractiveBezier.getCurve SpringPoint.setBasePosition
    SpringPoint.position
  exact ⟨rfl, rfl, rfl, rfl, rfl, rfl⟩

/-- C8 counterexample: for a curve with distinct endpoints, `sample(0)` has
one point but its last element is not `evaluate(1)` — the claim fails at
`n = 0`. -/
theorem sample_counterexample :
    ((⟨⟨0, 0⟩, ⟨0, 0⟩, ⟨0, 0⟩, ⟨1, 0⟩⟩ : CubicBezier).sample 0).getLast?
      ≠ some ((⟨⟨0, 0⟩, ⟨0, 0⟩, ⟨0, 0⟩, ⟨1, 0⟩⟩ : CubicBezier).evaluate 1) := by
  intro h
  have hr : List.range (0 + 1) = [0] := rfl
  simp only [CubicBezier.sample, hr, List.map_cons, List.map_nil,
    List.getLast?_singleton, Option.some_inj] at h
  have hx := congrArg Vector2D.x h
  norm_num [CubicBezier.evaluate, clamp01, min_def, max_def] at hx

/-- C8 amended: for `n ≥ 1`, `sample(n)` has exactly `n+1` points, its `i`-th
element is `evaluate(i/n)`, its first element is `evaluate(0)` and its last is
`evaluate(1)`. -/
theorem sample_points_amended (c : CubicBezier) (n : ℕ) (hn : 1 ≤ n) :
    (c.sample n).length = n + 1 ∧
      (∀ i : ℕ, i ≤ n → (c.sample n).get? i = some (c.evaluate ((i : ℝ) / (n : ℝ)))) ∧
      (c.sample n).get? 0 = some (c.evaluate 0) ∧
      (c.sample n).get? n = some (c.evaluate 1) := by
  have hget : ∀ i : ℕ, i ≤ n →
      (c.sample n).get? i = some (c.evaluate ((i : ℝ) / (n : ℝ))) := by
    intro i hi
    unfold CubicBezier.sample
    rw [List.get?_map, List.get?_range (by omega)]
    rfl
  refine ⟨by simp [CubicBezier.sample], hget, ?_, ?_⟩
  · have h := hget 0 (by omega)
    simpa using h
  · have h := hget n le_rfl
    rw [h, div_self (Nat.cast_ne_zero.mpr (by omega) : (n : ℝ) ≠ 0)]

/-- Witness for C8 at a concrete curve and `n = 2`. -/
theorem sample_points_amended_witness :
    1 ≤ 2 ∧
      (((⟨⟨0, 0⟩, ⟨0, 0⟩, ⟨0, 0⟩, ⟨1, 0⟩⟩ : CubicBezier).sample 2).length = 2 + 1 ∧
        (∀ i : ℕ, i ≤ 2 →
          ((⟨⟨0, 0⟩, ⟨0, 0⟩, ⟨0, 0⟩, ⟨1, 0⟩⟩ : CubicBezier).sample 2).get? i
            = some ((⟨⟨0, 0⟩, ⟨0, 0⟩, ⟨0, 0⟩, ⟨1, 0⟩⟩ : CubicBezier).evaluate
                ((i : ℝ) / ((2 : ℕ) : ℝ)))) ∧
        ((⟨⟨0, 0⟩, ⟨0, 0⟩, ⟨0, 0⟩, ⟨1, 0⟩⟩ : CubicBezier).sample 2).get? 0
          = some ((⟨⟨0, 0⟩, ⟨0, 0⟩, ⟨0, 0⟩, ⟨1, 0⟩⟩ : CubicBezier).evaluate 0) ∧
        ((⟨⟨0, 0⟩, ⟨0, 0⟩, ⟨0, 0⟩, ⟨1, 0⟩⟩ : CubicBezier).sample 2).get? 2
          = some ((⟨⟨0, 0⟩, ⟨0, 0⟩, ⟨0, 0⟩, ⟨1, 0⟩⟩ : CubicBezier).evaluate 1)) :=
  ⟨by norm_num, sample_points_amended _ 2 (by norm_num)⟩

/-- C9: a state whose target equals its position and whose velocity is zero is
a fixed point of any sequence of `update` calls — no drift. -/
theorem rest_state_fixed_point (s : SpringPhysics) (h1 : s.target = s.position)
    (h2 : s.velocity = ⟨0, 0⟩) (dts : List ℝ) :
    dts.foldl (fun st d => (st.update d).1) s = s := by
  induction dts with
  | nil => rfl
  | cons d ds ih =>
    simp only [List.foldl_cons]
    rw [update_at_rest s d h1 h2]
    exact ih

/-- Witness for C9 at a concrete resting state and a concrete dt sequence. -/
theorem rest_state_fixed_point_witness :
    ((⟨150, 12, 1, ⟨3, 4⟩, ⟨0, 0⟩, ⟨3, 4⟩, 2000, 500⟩ : SpringPhysics).target
        = (⟨150, 12, 1, ⟨3, 4⟩, ⟨0, 0⟩, ⟨3, 4⟩, 2000, 500⟩ : SpringPhysics).position ∧
      (⟨150, 12, 1, ⟨3, 4⟩, ⟨0, 0⟩, ⟨3, 4⟩, 2000, 500⟩ : SpringPhysics).velocity = ⟨0, 0⟩) ∧
      [(1:ℝ)/60, 1/30, 1].foldl (fun st d => (st.update d).1)
          (⟨150, 12, 1, ⟨3, 4⟩, ⟨0, 0⟩, ⟨3, 4⟩, 2000, 500⟩ : SpringPhysics)
        = (⟨150, 12, 1, ⟨3, 4⟩, ⟨0, 0⟩, ⟨3, 4⟩, 2000, 500⟩ : SpringPhysics) :=
  ⟨⟨rfl, rfl⟩, rest_state_fixed_point _ rfl rfl _⟩

/-- C10: `applyImpulse(impulse)` adds exactly `impulse/mass` to the velocity
and changes neither position nor target; the result is not clamped, and for
some state and impulse the new velocity magnitude strictly exceeds
`maxVelocity`. -/
theorem applyImpulse_shifts_velocity_unclamped :
    (∀ (s : SpringPhysics) (i : Vector2D),
      (s.applyImpulse i).velocity
          = ⟨s.velocity.x + i.x / s.mass, s.velocity.y + i.y / s.mass⟩ ∧
        (s.applyImpulse i).position = s.position ∧
        (s.applyImpulse i).target = s.target) ∧
      ∃ (s : SpringPhysics) (i : Vector2D),
        ((s.applyImpulse i).velocity).magnitude > s.maxVelocity := by
  constructor
  · intro s i
    refine ⟨?_, rfl, rfl⟩
    apply Vector2D.ext' <;>
      simp only [SpringPhysics.applyImpulse, Vector2D.add, Vector2D.divide_eq]
  · refine ⟨⟨150, 12, 1, ⟨0, 0⟩, ⟨0, 0⟩, ⟨0, 0⟩, 2000, 500⟩, ⟨3000, 0⟩, ?_⟩
    have hv : ((⟨150, 12, 1, ⟨0, 0⟩, ⟨0, 0⟩, ⟨0, 0⟩, 2000, 500⟩ : SpringPhysics).applyImpulse
        ⟨3000, 0⟩).velocity = ⟨3000, 0⟩ := by
      apply Vector2D.ext' <;>
        simp [SpringPhysics.applyImpulse, Vector2D.add, Vector2D.divide]
    rw [hv]
    show (2000:ℝ) < Vector2D.magnitude ⟨3000, 0⟩
    unfold Vector2D.magnitude
    rw [show (3000:ℝ) * 3000 + 0 * 0 = 3000 ^ 2 by norm_num,
      Real.sqrt_sq (by norm_num : (0:ℝ) ≤ 3000)]
    norm_num
